import Mathlib

/-!
Verification development for the podcast-transcription-tools repository
(`podcast_search.py` and `transcribe_podcast.py`).

The Python sources are embedded shallowly: pure computations become Lean
functions, the interactive discovery loop becomes a step function on an
explicit state type, the transcription pipeline becomes a function from an
environment of injected stage failures to a final result, and calls into
libraries (`hashlib.sha1`, `urllib3.util.retry.Retry`, `requests`) are
embedded by their documented semantics.  Machine words are `Nat` with
explicit reduction modulo `2^32` where the algorithm requires it.
-/

namespace Sha1

/-- Reduction of a natural number to a 32-bit word, as every SHA-1
intermediate value is taken modulo `2^32`. -/
def w32 (x : Nat) : Nat := x % 4294967296

/-- Left rotation of a 32-bit word by `n` bits (RFC 3174 `S^n`). -/
def rotl (n x : Nat) : Nat := w32 ((x <<< n) ||| (x >>> (32 - n)))

/-- Bitwise complement within 32 bits, used by the round function `f` for
rounds 0–19. -/
def compl32 (x : Nat) : Nat := x ^^^ 4294967295

/-- Lowercase hexadecimal digits, the alphabet of `hashlib`'s `hexdigest`. -/
def hexChars : List Char := "0123456789abcdef".data

/-- Hexadecimal digit for a nibble. -/
def hexDigit (n : Nat) : Char := hexChars.getD (n % 16) '0'

/-- Fixed-width rendering of a 32-bit word as 8 lowercase hex characters,
most significant nibble first. -/
def toHex8 (w : Nat) : List Char :=
  (List.range 8).map (fun i => hexDigit ((w >>> (4 * (7 - i))) % 16))

/-- Big-endian 32-bit word from 4 bytes. -/
def wordOfBytes (b0 b1 b2 b3 : Nat) : Nat :=
  ((b0 % 256) <<< 24) ||| ((b1 % 256) <<< 16) ||| ((b2 % 256) <<< 8) ||| (b3 % 256)

/-- Big-endian 8-byte rendering of the message bit length. -/
def lengthBytes (bits : Nat) : List Nat :=
  (List.range 8).map (fun i => (bits >>> (8 * (7 - i))) % 256)

/-- MD-strengthening padding: append `0x80`, zero bytes up to 56 mod 64, then
the 64-bit big-endian bit length. -/
def padMessage (msg : List Nat) : List Nat :=
  let padLen := (119 - msg.length % 64) % 64
  msg ++ [128] ++ List.replicate padLen 0 ++ lengthBytes (8 * msg.length)

/-- SHA-1 round function `f_t` (RFC 3174 section 5). -/
def f (t b c d : Nat) : Nat :=
  if t < 20 then (b &&& c) ||| (compl32 b &&& d)
  else if t < 40 then b ^^^ c ^^^ d
  else if t < 60 then (b &&& c) ||| (b &&& d) ||| (c &&& d)
  else b ^^^ c ^^^ d

/-- SHA-1 round constant `K_t`. -/
def k (t : Nat) : Nat :=
  if t < 20 then 1518500249
  else if t < 40 then 1859775393
  else if t < 60 then 2400959708
  else 3395469782

/-- Running hash state `H0 .. H4`. -/
structure Digest where
  h0 : Nat
  h1 : Nat
  h2 : Nat
  h3 : Nat
  h4 : Nat
  deriving DecidableEq

/-- Initial hash state. -/
def init : Digest := ⟨1732584193, 4023233417, 2562383102, 271733878, 3285377520⟩

/-- Message schedule: the 16 block words extended to 80 words. -/
def schedule (block : List Nat) : Array Nat :=
  let ws : Array Nat := (Array.range 16).map (fun i =>
    wordOfBytes (block.getD (4 * i) 0) (block.getD (4 * i + 1) 0)
      (block.getD (4 * i + 2) 0) (block.getD (4 * i + 3) 0))
  (List.range 64).foldl (fun a i =>
    let j := i + 16
    a.push (rotl 1 ((a.getD (j - 3) 0 ^^^ a.getD (j - 8) 0) ^^^
      (a.getD (j - 14) 0 ^^^ a.getD (j - 16) 0)))) ws

/-- Compression of one 64-byte block into the running state. -/
def processBlock (d : Digest) (block : List Nat) : Digest :=
  let w := schedule block
  let s := (List.range 80).foldl (fun (s : Nat × Nat × Nat × Nat × Nat) t =>
    let (a, b, c, dd, e) := s
    let temp := w32 (rotl 5 a + f t b c dd + e + w.getD t 0 + k t)
    (temp, a, rotl 30 b, c, dd)) (d.h0, d.h1, d.h2, d.h3, d.h4)
  ⟨w32 (d.h0 + s.1), w32 (d.h1 + s.2.1), w32 (d.h2 + s.2.2.1),
    w32 (d.h3 + s.2.2.2.1), w32 (d.h4 + s.2.2.2.2)⟩

/-- Fold `processBlock` over the padded message, 64 bytes at a time; `acc`
holds the bytes of the block being assembled (in order). -/
def processBytes (d : Digest) (acc : List Nat) : List Nat → Digest
  | [] => d
  | x :: rest =>
    if acc.length = 63 then processBytes (processBlock d (acc ++ [x])) [] rest
    else processBytes d (acc ++ [x]) rest

/-- SHA-1 digest of a byte sequence, as the five 32-bit state words. -/
def sha1 (msg : List Nat) : Digest := processBytes init [] (padMessage msg)

/-- Digest rendered as `hexdigest` renders it: 40 lowercase hex characters. -/
def sha1Hex (msg : List Nat) : String :=
  let d := sha1 msg
  ⟨toHex8 d.h0 ++ toHex8 d.h1 ++ toHex8 d.h2 ++ toHex8 d.h3 ++ toHex8 d.h4⟩

/-- UTF-8 encoding of one code point. -/
def utf8Bytes (c : Char) : List Nat :=
  let n := c.toNat
  if n < 128 then [n]
  else if n < 2048 then [192 ||| (n >>> 6), 128 ||| (n &&& 63)]
  else if n < 65536 then
    [224 ||| (n >>> 12), 128 ||| ((n >>> 6) &&& 63), 128 ||| (n &&& 63)]
  else
    [240 ||| (n >>> 18), 128 ||| ((n >>> 12) &&& 63), 128 ||| ((n >>> 6) &&& 63),
      128 ||| (n &&& 63)]

/-- UTF-8 encoding of a string as a byte list, the semantics of Python's
`str.encode` with encoding `utf-8`. -/
def strBytes (s : String) : List Nat := (s.data.map utf8Bytes).flatten

end Sha1

namespace PodcastSearch

/-- Podcast record, the shape consumed from the catalog's `feeds` array
(`id` and `title` are the fields the selection flow reads). -/
structure Podcast where
  id : Nat
  title : String
  deriving DecidableEq, Inhabited

/-- Episode record from the catalog's `items` array. -/
structure Episode where
  title : String
  datePublished : Nat
  duration : Nat
  deriving DecidableEq, Inhabited

/-- Header set returned by `get_headers`. -/
structure Headers where
  xAuthDate : String
  xAuthKey : String
  authorization : String
  userAgent : String
  deriving DecidableEq

/-- Embedding of `get_headers` (podcast_search.py lines 33–45): `auth_date`
is the current unix time in seconds rendered in decimal; the `Authorization`
value is `hashlib.sha1` of the UTF-8 bytes of key ++ secret ++ auth_date,
rendered by `hexdigest`. `now` stands for `int(time.time())`. -/
def get_headers (key secret : String) (now : Nat) : Headers :=
  let auth_date := toString now
  let hash_input := key ++ secret ++ auth_date
  { xAuthDate := auth_date
    xAuthKey := key
    authorization := Sha1.sha1Hex (Sha1.strBytes hash_input)
    userAgent := "PodcastSearch/1.0" }

/-- Retry policy configuration carried by `urllib3.util.retry.Retry`. -/
structure RetryConfig where
  total : Nat
  backoffFactor : Nat
  statusForcelist : List Nat
  deriving DecidableEq

/-- Embedding of `create_session` (podcast_search.py lines 20–31): the
session's adapter is configured with `Retry(total=3, backoff_factor=1,
status_forcelist=[429, 500, 502, 503, 504])`. -/
def create_session : RetryConfig :=
  { total := 3, backoffFactor := 1, statusForcelist := [429, 500, 502, 503, 504] }

/-- Outcome of one low-level connection attempt, as urllib3 classifies it:
a connection-establishment error, a read timeout, or a response with a
status code. -/
inductive Attempt where
  | connError
  | readTimeout
  | response (status : Nat)
  deriving DecidableEq

/-- Result of a session `get` after the retry loop finishes. -/
inductive RunResult where
  | response (status : Nat)
  | connFailure
  | readFailure
  | retriesExhausted
  deriving DecidableEq

/-- Embedding of urllib3's `Retry` loop semantics for the idempotent GETs
this program issues, driven by the sequence of per-attempt outcomes.  With
`connect`, `read` and `status` left at `None`, every retry class falls back
to the shared `total` budget: connection errors and read timeouts are
retried while budget remains, and a response's status triggers a retry
exactly when it is in `status_forcelist`.  Exhaustion surfaces the last
failure (`MaxRetryError`, seen by `requests` callers as a
connection/timeout/retry error). -/
def retryRun (cfg : RetryConfig) : Nat → List Attempt → RunResult
  | _, [] => .connFailure
  | budget, .connError :: rest =>
    if budget = 0 then .connFailure else retryRun cfg (budget - 1) rest
  | budget, .readTimeout :: rest =>
    if budget = 0 then .readFailure else retryRun cfg (budget - 1) rest
  | budget, .response s :: rest =>
    if s ∈ cfg.statusForcelist then
      if budget = 0 then .retriesExhausted else retryRun cfg (budget - 1) rest
    else .response s

/-- Session `get` of this program: the retry loop under `create_session`'s
configuration, starting with the full `total` budget. -/
def sessionGet (attempts : List Attempt) : RunResult :=
  retryRun create_session create_session.total attempts

/-- Backoff sleep before the `n`-th retry (1-based), per urllib3's
`get_backoff_time`: no sleep before the first retry, then
`backoff_factor * 2^(n-1)` time units. -/
def backoffTime (cfg : RetryConfig) (n : Nat) : Nat :=
  if n ≤ 1 then 0 else cfg.backoffFactor * 2 ^ (n - 1)

/-- Exception classes raised by `requests` that the two catalog functions
catch; every one is a subclass of `RequestException`, so each maps to one
of the three `except` arms. -/
inductive ReqExn where
  | connectionError
  | timeout
  | httpError
  | otherRequestException
  deriving DecidableEq

/-- JSON body of a catalog response: a dict whose `feeds` and `items` keys
may each be absent. -/
structure JsonBody where
  feeds : Option (List Podcast)
  items : Option (List Episode)
  deriving DecidableEq

/-- Outcome of the `session.get(...)` call as the caller sees it: one of
the transport-level exceptions, or a response bearing a status and body. -/
inductive HttpOutcome where
  | connError
  | timeoutError
  | otherError
  | ok (status : Nat) (body : JsonBody)
  deriving DecidableEq

/-- Body of the `try` block of `search_podcasts` (podcast_search.py lines
52–58): the get may raise a transport exception; `raise_for_status` raises
`HTTPError` for 4xx/5xx statuses; otherwise the `feeds` field is extracted
with `.get("feeds", [])`. -/
def searchTry (o : HttpOutcome) : Except ReqExn (List Podcast) :=
  match o with
  | .connError => .error .connectionError
  | .timeoutError => .error .timeout
  | .otherError => .error .otherRequestException
  | .ok status body =>
    if 400 ≤ status ∧ status < 600 then .error .httpError
    else .ok (body.feeds.getD [])

/-- Embedding of `search_podcasts` (podcast_search.py lines 47–69): every
`ReqExn` arm is caught by one of the three `except` clauses and yields the
empty list. -/
def search_podcasts (o : HttpOutcome) : List Podcast :=
  match searchTry o with
  | .error _ => []
  | .ok feeds => feeds

/-- Body of the `try` block of `get_episodes` (podcast_search.py lines
76–80), extracting `items`. -/
def episodesTry (o : HttpOutcome) : Except ReqExn (List Episode) :=
  match o with
  | .connError => .error .connectionError
  | .timeoutError => .error .timeout
  | .otherError => .error .otherRequestException
  | .ok status body =>
    if 400 ≤ status ∧ status < 600 then .error .httpError
    else .ok (body.items.getD [])

/-- Embedding of `get_episodes` (podcast_search.py lines 71–91). -/
def get_episodes (o : HttpOutcome) : List Episode :=
  match episodesTry o with
  | .error _ => []
  | .ok items => items

/-- Embedding of Python's `str.strip()` with no argument: remove whitespace
from both ends (the inputs the flow handles are ASCII, where Lean's
`Char.isWhitespace` agrees with Python's notion). -/
def pyStrip (s : String) : String :=
  ⟨((s.data.dropWhile Char.isWhitespace).reverse.dropWhile Char.isWhitespace).reverse⟩

/-- Embedding of Python's `str.lower()` (ASCII case mapping, which covers
every character the flow compares against). -/
def pyLower (s : String) : String := ⟨s.data.map Char.toLower⟩

/-- Digits-to-value accumulator for `pyParseInt`. -/
def digitsVal : List Char → Option Nat
  | [] => none
  | ds =>
    if ds.all Char.isDigit then
      some (ds.foldl (fun acc c => 10 * acc + (c.toNat - 48)) 0)
    else none

/-- Embedding of Python's `int(s)` on an already-stripped string: an
optional sign followed by at least one ASCII digit parses; anything else
raises `ValueError`.  (CPython additionally accepts underscore group
separators and non-ASCII digits; those inputs are outside this model.) -/
def pyParseInt (s : String) : Option Int :=
  match s.data with
  | '+' :: ds => (digitsVal ds).map (fun n => (n : Int))
  | '-' :: ds => (digitsVal ds).map (fun n => -(n : Int))
  | ds => (digitsVal ds).map (fun n => (n : Int))

/-- Action the selection prompt takes on one line of input. -/
inductive SelAction where
  | back
  | select (p : Podcast)
  | reprompt
  deriving DecidableEq

/-- Embedding of one pass of the selection loop body (podcast_search.py
lines 142–161): the input is stripped; `"b"` case-insensitively breaks back
to the search prompt; otherwise `int(...)` is attempted (`ValueError` is
caught and re-prompts), and the 0-based `index = n - 1` must satisfy
`0 <= index < min(5, len(podcasts))` to select `podcasts[index]`, whose
episodes are then fetched; otherwise the loop re-prompts. -/
def selectionStep (podcasts : List Podcast) (raw : String) : SelAction :=
  let s := pyStrip raw
  if pyLower s = "b" then .back
  else
    match pyParseInt s with
    | none => .reprompt
    | some n =>
      let index := n - 1
      if 0 ≤ index ∧ index < min 5 (podcasts.length : Int) then
        .select (podcasts.getD index.toNat default)
      else .reprompt

/-- Action the search prompt takes on one line of input. -/
inductive PromptAction where
  | quit
  | search (term : String)
  deriving DecidableEq

/-- Embedding of the search-prompt step (podcast_search.py lines 124–126):
the input is stripped, `"q"` case-insensitively quits, and any other
string — including the empty string — becomes the search term. -/
def searchPromptStep (raw : String) : PromptAction :=
  let s := pyStrip raw
  if pyLower s = "q" then .quit else .search s

/-- State of the interactive discovery loop. -/
inductive DiscState where
  | awaitingSearch
  | awaitingSelection (podcasts : List Podcast)
  | exited
  deriving DecidableEq

/-- Observable events of the discovery loop: prompts shown and catalog
requests issued. -/
inductive DiscEvent where
  | promptSearch
  | searchCall (term : String)
  | promptSelection
  | episodesCall (feedId : Nat)
  deriving DecidableEq

/-- One transition of the discovery loop (podcast_search.py lines 122–161)
on one line of user input, returning the successor state and the events
the iteration emits.  `catalog` stands for the catalog's reply to
`search_podcasts` for a given term.  An empty result prints "No podcasts
found" and returns to the search prompt; a non-empty result enters the
selection sub-loop, which re-prompts in place on invalid input. -/
def discStep (catalog : String → List Podcast) (st : DiscState) (raw : String) :
    DiscState × List DiscEvent :=
  match st with
  | .exited => (.exited, [])
  | .awaitingSearch =>
    match searchPromptStep raw with
    | .quit => (.exited, [.promptSearch])
    | .search t =>
      let results := catalog t
      if results = [] then (.awaitingSearch, [.promptSearch, .searchCall t])
      else (.awaitingSelection results, [.promptSearch, .searchCall t])
  | .awaitingSelection podcasts =>
    match selectionStep podcasts raw with
    | .back => (.awaitingSearch, [.promptSelection])
    | .reprompt => (.awaitingSelection podcasts, [.promptSelection])
    | .select p => (.awaitingSearch, [.promptSelection, .episodesCall p.id])

/-- Discovery loop run over a full input script. -/
def discRun (catalog : String → List Podcast) : DiscState → List String → List DiscEvent
  | _, [] => []
  | st, raw :: rest =>
    let (st', evs) := discStep catalog st raw
    evs ++ discRun catalog st' rest

/-- Embedding of `main` of podcast_search.py (lines 117–161): `key` and
`secret` are `os.getenv` of the two credential variables (`none` when
unset).  The startup check `if not API_KEY` fires on a missing or empty
key — the secret is not examined — and exits with code 1 before the loop
emits any prompt or network event; otherwise the loop runs to a normal exit
with code 0. -/
def discoveryMain (key secret : Option String) (catalog : String → List Podcast)
    (inputs : List String) : Nat × List DiscEvent :=
  if key.getD "" = "" then (1, [])
  else (0, discRun catalog .awaitingSearch inputs)

end PodcastSearch

namespace Transcribe

/-- Failure injection environment for one pipeline invocation: which stage
fails, and whether a failing download had already created the temp file
(the stream can break either before or after `open(output_path, 'wb')`). -/
structure PipelineEnv where
  downloadFails : Bool
  tempCreatedOnFailure : Bool
  asrFails : Bool
  writeFails : Bool
  deriving DecidableEq

/-- Filesystem facts the pipeline claims are about. -/
structure FsState where
  tempExists : Bool
  transcriptWritten : Bool
  deriving DecidableEq

/-- Stage tag of the diagnostic printed to stderr. -/
inductive ErrTag where
  | downloadError
  | transcriptionError
  deriving DecidableEq

/-- Embedding of `download_audio` (transcribe_podcast.py lines 22–52):
any exception is caught, `"Error downloading file"` is printed and `False`
returned; on failure the temp file exists iff the stream broke after the
file was opened.  On success the temp file exists and `True` is returned. -/
def download_audio (env : PipelineEnv) (fs : FsState) : Bool × FsState :=
  if env.downloadFails then
    (false, { fs with tempExists := fs.tempExists || env.tempCreatedOnFailure })
  else (true, { fs with tempExists := true })

/-- Embedding of `transcribe_audio` (transcribe_podcast.py lines 61–80):
one `try` block covers model loading, inference AND the transcript write;
any exception from any of them is caught by the same handler, which prints
`"Error during transcription"` and returns `False`.  A write failure is
therefore reported exactly like an ASR failure. -/
def transcribe_audio (env : PipelineEnv) (fs : FsState) : Bool × FsState :=
  if env.asrFails then (false, fs)
  else if env.writeFails then (false, fs)
  else (true, { fs with transcriptWritten := true })

/-- Cleanup step of `main`'s `finally` block (transcribe_podcast.py lines
113–116): `if temp_audio.exists(): temp_audio.unlink()`. -/
def cleanup (fs : FsState) : FsState :=
  if fs.tempExists then { fs with tempExists := false } else fs

/-- Result of one `main` invocation of transcribe_podcast.py. -/
structure PipeResult where
  exitCode : Nat
  errTag : Option ErrTag
  fs : FsState
  deriving DecidableEq

/-- Embedding of `main` (transcribe_podcast.py lines 99–116).  The `try`
body downloads (failure → `sys.exit(1)`), transcribes (failure →
`sys.exit(1)`), then reports success; `sys.exit` raises `SystemExit`, so
the `finally` cleanup runs on every path, which the embedding renders by
applying `cleanup` on each exit path explicitly. -/
def pipelineRun (env : PipelineEnv) : PipeResult :=
  let fs0 : FsState := ⟨false, false⟩
  let (dlOk, fs1) := download_audio env fs0
  if dlOk = false then
    { exitCode := 1, errTag := some .downloadError, fs := cleanup fs1 }
  else
    let (trOk, fs2) := transcribe_audio env fs1
    if trOk = false then
      { exitCode := 1, errTag := some .transcriptionError, fs := cleanup fs2 }
    else { exitCode := 0, errTag := none, fs := cleanup fs2 }

/-- Timeout binding of one `requests` call site. -/
structure RequestSpec where
  stream : Bool
  timeout : Option Nat
  deriving DecidableEq

/-- Catalog search GET (podcast_search.py line 56): `timeout=10`. -/
def searchRequest : RequestSpec := { stream := false, timeout := some 10 }

/-- Catalog episodes GET (podcast_search.py line 78): `timeout=10`. -/
def episodesRequest : RequestSpec := { stream := false, timeout := some 10 }

/-- Audio streaming GET (transcribe_podcast.py line 28):
`requests.get(url, stream=True)` passes no `timeout` argument, and the
`requests` default is `None` — wait without bound. -/
def downloadRequest : RequestSpec := { stream := true, timeout := none }

/-- Every HTTP call site the program has. -/
def programRequests : List RequestSpec := [searchRequest, episodesRequest, downloadRequest]

/-- File contents written by the download loop (transcribe_podcast.py lines
43–46): each chunk yielded by `iter_content` is appended in order. -/
def fileBytes (chunks : List (List Nat)) : List Nat := chunks.flatten

/-- Progress-bar counter trace (transcribe_podcast.py lines 35–47): the bar
starts at 0 and `progress.update(size)` adds each chunk's written size
after its write, so the successive `bytesTransferred` values are the
partial sums of the chunk lengths. -/
def progressSeq (chunks : List (List Nat)) : List Nat :=
  (chunks.map List.length).scanl (· + ·) 0

end Transcribe

set_option maxRecDepth 40000 in
theorem sha1_test_vector :
    Sha1.sha1Hex (Sha1.strBytes "abc") = "a9993e364706816aba3e25717850c26c9cd0d89d" := by
  decide

/-- Claim C1: for every invocation of the transcription pipeline, on every
exit path — success, failure injected at the download stage, at the
transcription stage, and at the persist stage — the temporary audio file is
absent after `main` returns, because the `finally` cleanup runs on each of
those paths. -/
theorem Transcribe.temp_file_absent_after_run (env : Transcribe.PipelineEnv) :
    (Transcribe.pipelineRun env).fs.tempExists = false := by
  rcases env with ⟨d, t, a, w⟩
  cases d <;> cases t <;> cases a <;> cases w <;> rfl

/-- Claim C7 counterexample: a run whose only failure is the transcript
write (persist stage) surfaces exactly the same stage tag as a run whose
failure is ASR inference — `transcriptionError`, printed by the shared
`except` handler of `transcribe_audio`.  There is no distinct persist-stage
tag, so the persist failure is not "distinct from the Transcription
stage". -/
theorem Transcribe.persist_tag_counterexample :
    (Transcribe.pipelineRun ⟨false, false, false, true⟩).errTag =
      (Transcribe.pipelineRun ⟨false, false, true, false⟩).errTag ∧
    (Transcribe.pipelineRun ⟨false, false, false, true⟩).errTag =
      some Transcribe.ErrTag.transcriptionError := by
  decide

/-- Claim C7 (amended): when the ASR transcription succeeds but the
filesystem write of the transcript fails, the pipeline aborts with exit
code 1 after guaranteed temp-file cleanup, but the failure is reported with
the transcription-stage diagnostic — the same tag an ASR failure produces —
not a distinct persist-stage failure. -/
theorem Transcribe.persist_failure_reported_as_transcription (b : Bool) :
    Transcribe.pipelineRun ⟨false, b, false, true⟩ =
      ⟨1, some Transcribe.ErrTag.transcriptionError, ⟨false, false⟩⟩ := by
  cases b <;> rfl

/-- Claim C8 counterexample: the audio streaming GET is issued by the
program yet binds no timeout (`requests.get(url, stream=True)` leaves the
`requests` default of `None`), so not every request the program issues
binds a bounded timeout. -/
theorem Transcribe.download_request_no_timeout :
    Transcribe.downloadRequest ∈ Transcribe.programRequests ∧
    Transcribe.downloadRequest.timeout = none := by
  decide

/-- Claim C8 (amended): the two catalog GETs bind a fixed 10-second
timeout, but the audio streaming GET binds no timeout at all and may block
without bound. -/
theorem Transcribe.request_timeout_bindings :
    Transcribe.searchRequest.timeout = some 10 ∧
    Transcribe.episodesRequest.timeout = some 10 ∧
    Transcribe.downloadRequest.timeout = none ∧
    Transcribe.programRequests =
      [Transcribe.searchRequest, Transcribe.episodesRequest, Transcribe.downloadRequest] := by
  decide

/-- Claim C2: for every transport outcome, `search_podcasts` and
`get_episodes` return a list and never propagate an exception: every HTTP
failure class — connection error, timeout, 4xx/5xx status surfaced after
retries (which `raise_for_status` turns into `HTTPError`), and any other
`RequestException` — yields the empty list, and a JSON body missing the
`feeds` (resp. `items`) field also yields the empty list. -/
theorem PodcastSearch.catalog_degrade_to_empty :
    (∀ o : PodcastSearch.HttpOutcome,
      (o = .connError ∨ o = .timeoutError ∨ o = .otherError) →
        PodcastSearch.search_podcasts o = [] ∧ PodcastSearch.get_episodes o = []) ∧
    (∀ (st : Nat) (body : PodcastSearch.JsonBody), 400 ≤ st → st < 600 →
        PodcastSearch.search_podcasts (.ok st body) = [] ∧
        PodcastSearch.get_episodes (.ok st body) = []) ∧
    (∀ (st : Nat) (body : PodcastSearch.JsonBody), st < 400 → body.feeds = none →
        PodcastSearch.search_podcasts (.ok st body) = []) ∧
    (∀ (st : Nat) (body : PodcastSearch.JsonBody), st < 400 → body.items = none →
        PodcastSearch.get_episodes (.ok st body) = []) := by
  refine ⟨?_, ?_, ?_, ?_⟩
  · rintro o (rfl | rfl | rfl) <;> exact ⟨rfl, rfl⟩
  · intro st body h1 h2
    constructor <;>
      simp [PodcastSearch.search_podcasts, PodcastSearch.searchTry,
        PodcastSearch.get_episodes, PodcastSearch.episodesTry, h1, h2]
  · intro st body h1 h2
    simp [PodcastSearch.search_podcasts, PodcastSearch.searchTry, h2,
      Nat.not_le.mpr h1]
  · intro st body h1 h2
    simp [PodcastSearch.get_episodes, PodcastSearch.episodesTry, h2,
      Nat.not_le.mpr h1]

/-- Claim C2 witness: the theorem evaluated at each failure class and at
bodies missing the extracted field. -/
theorem PodcastSearch.catalog_degrade_to_empty_witness :
    (PodcastSearch.search_podcasts .connError = [] ∧
      PodcastSearch.get_episodes .connError = []) ∧
    (PodcastSearch.search_podcasts .timeoutError = [] ∧
      PodcastSearch.get_episodes .timeoutError = []) ∧
    (PodcastSearch.search_podcasts (.ok 503 ⟨none, none⟩) = [] ∧
      PodcastSearch.get_episodes (.ok 503 ⟨none, none⟩) = []) ∧
    PodcastSearch.search_podcasts (.ok 200 ⟨none, some []⟩) = [] ∧
    PodcastSearch.get_episodes (.ok 200 ⟨some [], none⟩) = [] :=
  ⟨PodcastSearch.catalog_degrade_to_empty.1 .connError (Or.inl rfl),
    PodcastSearch.catalog_degrade_to_empty.1 .timeoutError (Or.inr (Or.inl rfl)),
    PodcastSearch.catalog_degrade_to_empty.2.1 503 ⟨none, none⟩ (by decide) (by decide),
    PodcastSearch.catalog_degrade_to_empty.2.2.1 200 ⟨none, some []⟩ (by decide) rfl,
    PodcastSearch.catalog_degrade_to_empty.2.2.2 200 ⟨some [], none⟩ (by decide) rfl⟩

/-- Every value `hexDigit` produces is drawn from the lowercase hex
alphabet. -/
theorem Sha1.hexDigit_mem_hexChars (n : Nat) :
    Sha1.hexChars.contains (Sha1.hexDigit n) = true := by
  have h : n % 16 < 16 := Nat.mod_lt _ (by norm_num)
  unfold Sha1.hexDigit
  set m := n % 16 with hm
  interval_cases m <;> rfl

/-- Rendering a word with `toHex8` yields 8 characters, all lowercase
hex. -/
theorem Sha1.toHex8_spec (w : Nat) :
    (Sha1.toHex8 w).length = 8 ∧ (Sha1.toHex8 w).all Sha1.hexChars.contains = true := by
  constructor
  · simp [Sha1.toHex8]
  · simp only [Sha1.toHex8, List.all_eq_true, List.mem_map]
    rintro c ⟨i, -, rfl⟩
    exact Sha1.hexDigit_mem_hexChars _

/-- SHA-1 hex digests are 40 characters, all from the lowercase hex
alphabet. -/
theorem Sha1.sha1Hex_spec (msg : List Nat) :
    (Sha1.sha1Hex msg).length = 40 ∧
    (Sha1.sha1Hex msg).data.all Sha1.hexChars.contains = true := by
  unfold Sha1.sha1Hex
  constructor
  · show (List.length _) = 40
    simp [(Sha1.toHex8_spec _).1]
  · show (List.all _ _) = true
    simp only [List.all_append, Bool.and_eq_true]
    exact ⟨⟨⟨⟨(Sha1.toHex8_spec _).2, (Sha1.toHex8_spec _).2⟩, (Sha1.toHex8_spec _).2⟩,
      (Sha1.toHex8_spec _).2⟩, (Sha1.toHex8_spec _).2⟩

/-- Claim C3: for all credentials and every call time, `get_headers`
returns `Authorization` equal to the SHA-1 digest of
key ++ secret ++ decimal timestamp (UTF-8 encoded), rendered as a
40-character lowercase hexadecimal string; `X-Auth-Date` is that same
timestamp string, `X-Auth-Key` is the key, and the `User-Agent` is the
fixed client identifier. -/
theorem PodcastSearch.get_headers_contract (key secret : String) (now : Nat) :
    (PodcastSearch.get_headers key secret now).authorization =
      Sha1.sha1Hex (Sha1.strBytes (key ++ secret ++ toString now)) ∧
    (PodcastSearch.get_headers key secret now).authorization.length = 40 ∧
    (PodcastSearch.get_headers key secret now).authorization.data.all
      Sha1.hexChars.contains = true ∧
    (PodcastSearch.get_headers key secret now).xAuthDate = toString now ∧
    (PodcastSearch.get_headers key secret now).xAuthKey = key ∧
    (PodcastSearch.get_headers key secret now).userAgent = "PodcastSearch/1.0" :=
  ⟨rfl, (Sha1.sha1Hex_spec _).1, (Sha1.sha1Hex_spec _).2, rfl, rfl, rfl⟩

/-- Head of a running-sum trace is its starting value. -/
theorem Transcribe.scanl_add_head (a : Nat) (l : List Nat) :
    (List.scanl (· + ·) a l).head? = some a := by
  cases l <;> simp [List.scanl_nil, List.scanl_cons]

/-- Running sums of naturals never decrease. -/
theorem Transcribe.scanl_add_chain (l : List Nat) :
    ∀ a : Nat, List.Chain' (· ≤ ·) (List.scanl (· + ·) a l) := by
  induction l with
  | nil => intro a; simp [List.scanl_nil]
  | cons x l ih =>
    intro a
    rw [List.scanl_cons, List.singleton_append, List.chain'_cons']
    refine ⟨?_, ih (a + x)⟩
    intro y hy
    rw [Transcribe.scanl_add_head] at hy
    simp only [Option.mem_def, Option.some_inj] at hy
    subst hy
    exact Nat.le_add_right a x

/-- A running-sum trace ends at the starting value plus the list's sum. -/
theorem Transcribe.scanl_add_getLastD (l : List Nat) :
    ∀ a d : Nat, (List.scanl (· + ·) a l).getLastD d = a + l.sum := by
  induction l with
  | nil => intro a d; simp [List.scanl_nil]
  | cons x l ih =>
    intro a d
    rw [List.scanl_cons, List.singleton_append, List.getLastD_cons, ih (a + x) a,
      List.sum_cons]
    omega

/-- Claim C9: across a fetch the progress counter is monotonically
non-decreasing — one update after each chunk write — and after a
successful fetch it ends at the destination file's byte size, which equals
the total number of bytes streamed. -/
theorem Transcribe.download_progress_invariant (chunks : List (List Nat)) :
    List.Chain' (· ≤ ·) (Transcribe.progressSeq chunks) ∧
    (Transcribe.progressSeq chunks).getLastD 0 = (Transcribe.fileBytes chunks).length ∧
    (Transcribe.fileBytes chunks).length = (chunks.map List.length).sum := by
  refine ⟨Transcribe.scanl_add_chain _ _, ?_, ?_⟩
  · rw [Transcribe.progressSeq, Transcribe.scanl_add_getLastD, Transcribe.fileBytes,
      List.length_flatten]
    omega
  · rw [Transcribe.fileBytes, List.length_flatten]

/-- Retry loop consumes at most `budget + 1` attempts: outcomes beyond that
prefix cannot influence the result. -/
theorem PodcastSearch.retryRun_budget (cfg : PodcastSearch.RetryConfig) :
    ∀ (l : List PodcastSearch.Attempt) (b : Nat), l.length = b + 1 →
      ∀ l', PodcastSearch.retryRun cfg b (l ++ l') = PodcastSearch.retryRun cfg b l := by
  intro l
  induction l with
  | nil => intro b h l'; simp at h
  | cons a rest ih =>
    intro b h l'
    simp only [List.length_cons] at h
    have hb : rest.length = b := by omega
    rw [List.cons_append]
    cases a with
    | connError =>
      by_cases h0 : b = 0
      · subst h0; simp [PodcastSearch.retryRun]
      · simp only [PodcastSearch.retryRun, if_neg h0]
        exact ih (b - 1) (by omega) l'
    | readTimeout =>
      by_cases h0 : b = 0
      · subst h0; simp [PodcastSearch.retryRun]
      · simp only [PodcastSearch.retryRun, if_neg h0]
        exact ih (b - 1) (by omega) l'
    | response s =>
      by_cases hs : s ∈ cfg.statusForcelist
      · by_cases h0 : b = 0
        · subst h0; simp [PodcastSearch.retryRun, hs]
        · simp only [PodcastSearch.retryRun, if_pos hs, if_neg h0]
          exact ih (b - 1) (by omega) l'
      · simp [PodcastSearch.retryRun, hs]

/-- Claim C4 counterexample: under `create_session`'s configuration a
connection error on the first attempt is followed by a second attempt whose
response is delivered — the network-level failure was retried.  Only a
zero retry budget would surface the failure immediately, so the claim that
the client never retries network-level failures is false: `Retry(total=3)`
leaves `connect` and `read` at their default of falling back to the shared
`total` budget. -/
theorem PodcastSearch.network_error_retried_counterexample :
    PodcastSearch.sessionGet [.connError, .response 200] = .response 200 ∧
    PodcastSearch.retryRun PodcastSearch.create_session 0 [.connError, .response 200] =
      .connFailure := by
  decide

/-- Claim C4 (amended): the automatic retry fires for response statuses in
`{429, 500, 502, 503, 504}` and ALSO for connection errors and read
timeouts, each consuming the shared budget of 3 total retries (at most 4
attempts), with exponential (doubling) backoff at factor 1; when the budget
is exhausted the last failure is surfaced. -/
theorem PodcastSearch.retry_policy_amended :
    PodcastSearch.create_session = ⟨3, 1, [429, 500, 502, 503, 504]⟩ ∧
    (∀ (s : Nat) (rest : List PodcastSearch.Attempt) (b : Nat),
      s ∉ PodcastSearch.create_session.statusForcelist →
        PodcastSearch.retryRun PodcastSearch.create_session b (.response s :: rest) =
          .response s) ∧
    (∀ (s : Nat) (rest : List PodcastSearch.Attempt) (b : Nat),
      s ∈ PodcastSearch.create_session.statusForcelist → 0 < b →
        PodcastSearch.retryRun PodcastSearch.create_session b (.response s :: rest) =
          PodcastSearch.retryRun PodcastSearch.create_session (b - 1) rest) ∧
    (∀ (s : Nat) (rest : List PodcastSearch.Attempt),
      s ∈ PodcastSearch.create_session.statusForcelist →
        PodcastSearch.retryRun PodcastSearch.create_session 0 (.response s :: rest) =
          .retriesExhausted) ∧
    (∀ (rest : List PodcastSearch.Attempt) (b : Nat), 0 < b →
        PodcastSearch.retryRun PodcastSearch.create_session b (.connError :: rest) =
          PodcastSearch.retryRun PodcastSearch.create_session (b - 1) rest) ∧
    (∀ (rest : List PodcastSearch.Attempt) (b : Nat), 0 < b →
        PodcastSearch.retryRun PodcastSearch.create_session b (.readTimeout :: rest) =
          PodcastSearch.retryRun PodcastSearch.create_session (b - 1) rest) ∧
    (∀ (l l' : List PodcastSearch.Attempt), l.length = 4 →
        PodcastSearch.sessionGet (l ++ l') = PodcastSearch.sessionGet l) ∧
    (∀ n : Nat, 2 ≤ n →
        PodcastSearch.backoffTime PodcastSearch.create_session (n + 1) =
          2 * PodcastSearch.backoffTime PodcastSearch.create_session n) := by
  refine ⟨rfl, ?_, ?_, ?_, ?_, ?_, ?_, ?_⟩
  · intro s rest b hs
    simp [PodcastSearch.retryRun, hs]
  · intro s rest b hs hb
    simp [PodcastSearch.retryRun, hs, Nat.pos_iff_ne_zero.mp hb]
  · intro s rest hs
    simp [PodcastSearch.retryRun, hs]
  · intro rest b hb
    simp [PodcastSearch.retryRun, Nat.pos_iff_ne_zero.mp hb]
  · intro rest b hb
    simp [PodcastSearch.retryRun, Nat.pos_iff_ne_zero.mp hb]
  · intro l l' hl
    exact PodcastSearch.retryRun_budget _ l 3 hl l'
  · intro n hn
    have h1 : ¬ (n + 1 ≤ 1) := by omega
    have h2 : ¬ (n ≤ 1) := by omega
    simp only [PodcastSearch.backoffTime, if_neg h1, if_neg h2,
      PodcastSearch.create_session, one_mul, Nat.add_sub_cancel]
    have hn1 : n - 1 + 1 = n := by omega
    calc 2 ^ n = 2 ^ (n - 1 + 1) := by rw [hn1]
      _ = 2 ^ (n - 1) * 2 := pow_succ 2 (n - 1)
      _ = 2 * 2 ^ (n - 1) := Nat.mul_comm _ _

/-- Claim C4 witness: the amended retry policy evaluated at concrete
attempt sequences — a non-forcelist status delivered untouched, a 503
retried, exhaustion at zero budget, a connection error and a read timeout
retried, the 4-attempt bound, and the doubling backoff. -/
theorem PodcastSearch.retry_policy_amended_witness :
    PodcastSearch.retryRun PodcastSearch.create_session 3 [.response 418] = .response 418 ∧
    PodcastSearch.retryRun PodcastSearch.create_session 3 [.response 503, .response 200] =
      PodcastSearch.retryRun PodcastSearch.create_session 2 [.response 200] ∧
    PodcastSearch.retryRun PodcastSearch.create_session 0 [.response 503] =
      .retriesExhausted ∧
    PodcastSearch.retryRun PodcastSearch.create_session 3 [.connError, .response 200] =
      PodcastSearch.retryRun PodcastSearch.create_session 2 [.response 200] ∧
    PodcastSearch.retryRun PodcastSearch.create_session 3 [.readTimeout, .response 200] =
      PodcastSearch.retryRun PodcastSearch.create_session 2 [.response 200] ∧
    PodcastSearch.sessionGet
        ([.connError, .connError, .connError, .connError] ++ [.response 200]) =
      PodcastSearch.sessionGet [.connError, .connError, .connError, .connError] ∧
    PodcastSearch.backoffTime PodcastSearch.create_session 3 =
      2 * PodcastSearch.backoffTime PodcastSearch.create_session 2 :=
  ⟨PodcastSearch.retry_policy_amended.2.1 418 [] 3 (by decide),
    PodcastSearch.retry_policy_amended.2.2.1 503 [.response 200] 3 (by decide) (by decide),
    PodcastSearch.retry_policy_amended.2.2.2.1 503 [] (by decide),
    PodcastSearch.retry_policy_amended.2.2.2.2.1 [.response 200] 3 (by decide),
    PodcastSearch.retry_policy_amended.2.2.2.2.2.1 [.response 200] 3 (by decide),
    PodcastSearch.retry_policy_amended.2.2.2.2.2.2.1
      [.connError, .connError, .connError, .connError] [.response 200] (by decide),
    PodcastSearch.retry_policy_amended.2.2.2.2.2.2.2 2 (by decide)⟩

/-- Claim C5 counterexample: with the API key present but the API secret
absent, the discovery flow does NOT exit at startup — `main` checks only
`API_KEY` — and runs its loop (here: one prompt, then a user quit, exit
code 0).  So absence of the secret is not a fatal startup error. -/
theorem PodcastSearch.missing_secret_not_fatal :
    PodcastSearch.discoveryMain (some "key") none (fun _ => []) ["q"] =
      (0, [PodcastSearch.DiscEvent.promptSearch]) := by
  decide

/-- Claim C5 (amended): the startup check examines only the API key: a
missing or empty key exits with code 1 before any prompt or catalog event
is emitted, while a present non-empty key proceeds into the loop whatever
the secret is — the secret's absence is never detected at startup. -/
theorem PodcastSearch.startup_check_key_only
    (secret secret' : Option String) (catalog : String → List PodcastSearch.Podcast)
    (inputs : List String) :
    PodcastSearch.discoveryMain none secret catalog inputs = (1, []) ∧
    PodcastSearch.discoveryMain (some "") secret catalog inputs = (1, []) ∧
    (∀ k : String, k ≠ "" →
      PodcastSearch.discoveryMain (some k) secret catalog inputs =
        (0, PodcastSearch.discRun catalog .awaitingSearch inputs)) ∧
    (∀ key : Option String,
      PodcastSearch.discoveryMain key secret catalog inputs =
        PodcastSearch.discoveryMain key secret' catalog inputs) := by
  refine ⟨rfl, rfl, ?_, fun _ => rfl⟩
  intro k hk
  simp [PodcastSearch.discoveryMain, hk]

/-- Claim C5 witness: the amended startup behaviour at concrete inputs — a
missing key is fatal with no events, and a present key with a missing
secret reaches the loop. -/
theorem PodcastSearch.startup_check_key_only_witness :
    PodcastSearch.discoveryMain none (some "secret") (fun _ => []) ["q"] = (1, []) ∧
    PodcastSearch.discoveryMain (some "key") none (fun _ => []) ["q"] =
      (0, PodcastSearch.discRun (fun _ => []) .awaitingSearch ["q"]) :=
  ⟨(PodcastSearch.startup_check_key_only (some "secret") none (fun _ => []) ["q"]).1,
    (PodcastSearch.startup_check_key_only none (some "s") (fun _ => []) ["q"]).2.2.1
      "key" (by decide)⟩

/-- Claim C10: an input that strips to the empty string at the search
prompt is neither treated as quit nor re-prompted locally: the step emits a
catalog search request with the empty string as the term, and the flow does
not exit. -/
theorem PodcastSearch.empty_term_searches
    (catalog : String → List PodcastSearch.Podcast) (raw : String)
    (h : PodcastSearch.pyStrip raw = "") :
    PodcastSearch.searchPromptStep raw = .search "" ∧
    (PodcastSearch.discStep catalog .awaitingSearch raw).2 =
      [.promptSearch, .searchCall ""] ∧
    (PodcastSearch.discStep catalog .awaitingSearch raw).1 ≠ .exited := by
  have hstep : PodcastSearch.searchPromptStep raw = .search "" := by
    unfold PodcastSearch.searchPromptStep
    rw [h]
    rw [if_neg (by decide)]
  refine ⟨hstep, ?_, ?_⟩ <;>
    · simp only [PodcastSearch.discStep, hstep]
      split <;> simp

/-- Claim C10 witness: a whitespace-only input line (a single space) at the
search prompt proceeds to a catalog search for the empty term. -/
theorem PodcastSearch.empty_term_searches_witness :
    PodcastSearch.searchPromptStep " " = .search "" ∧
    (PodcastSearch.discStep (fun _ => []) .awaitingSearch " ").2 =
      [.promptSearch, .searchCall ""] ∧
    (PodcastSearch.discStep (fun _ => []) .awaitingSearch " ").1 ≠ .exited :=
  PodcastSearch.empty_term_searches (fun _ => []) " " (by decide)

/-- Either `toLower` leaves a character unchanged, or the character is an
ASCII uppercase letter. -/
theorem PodcastSearch.toLower_cases (c : Char) :
    c.toLower = c ∨ (c.toNat ≥ 65 ∧ c.toNat ≤ 90) := by
  by_cases h : c.toNat ≥ 65 ∧ c.toNat ≤ 90
  · right; exact h
  · left
    show (if c.toNat ≥ 65 ∧ c.toNat ≤ 90 then Char.ofNat (c.toNat + 32) else c) = c
    rw [if_neg h]

/-- An ASCII digit is not an ASCII uppercase letter. -/
theorem PodcastSearch.digit_not_upper (c : Char) (h1 : c.isDigit = true) :
    ¬ (c.toNat ≥ 65 ∧ c.toNat ≤ 90) := by
  simp only [Char.isDigit, Bool.and_eq_true, decide_eq_true_eq] at h1
  obtain ⟨ha, hb⟩ := h1
  have hle : c.val.toNat ≤ 57 := by
    rw [UInt32.le_def, BitVec.le_def] at hb
    simpa using hb
  have hc : c.toNat = c.val.toNat := rfl
  omega

/-- A digit never lowercases to `'b'`. -/
theorem PodcastSearch.digit_toLower_ne_b (c : Char) (h1 : c.isDigit = true) :
    c.toLower ≠ 'b' := by
  intro h2
  rcases PodcastSearch.toLower_cases c with h | h
  · rw [h] at h2; subst h2; simp at h1
  · exact PodcastSearch.digit_not_upper c h1 h

/-- A string that `int(...)` accepts cannot lowercase to `"b"`, so the
`'b'` branch of the selection loop and the integer branch are mutually
exclusive. -/
theorem PodcastSearch.parse_some_not_b {s : String} {n : Int}
    (h : PodcastSearch.pyParseInt s = some n) : PodcastSearch.pyLower s ≠ "b" := by
  intro hb
  have hdata : s.data.map Char.toLower = ['b'] := congrArg String.data hb
  rcases hs : s.data with _ | ⟨c, rest⟩
  · rw [hs] at hdata; simp at hdata
  · rw [hs] at hdata
    simp only [List.map_cons, List.cons.injEq] at hdata
    obtain ⟨hc, hrest⟩ := hdata
    have hrestnil : rest = [] := by
      cases rest with
      | nil => rfl
      | cons d ds => simp at hrest
    subst hrestnil
    unfold PodcastSearch.pyParseInt at h
    rw [hs] at h
    split at h
    · rename_i x ds heq
      injection heq with h1 h2
      subst h2
      simp [PodcastSearch.digitsVal] at h
    · rename_i x ds heq
      injection heq with h1 h2
      subst h2
      simp [PodcastSearch.digitsVal] at h
    · rcases hd : PodcastSearch.digitsVal [c] with _ | m
      · rw [hd] at h
        simp at h
      · have hdig : c.isDigit = true := by
          unfold PodcastSearch.digitsVal at hd
          split at hd
          · rename_i hall
            simpa using hall
          · simp only [Option.ite_none_right_eq_some, List.all_cons, List.all_nil,
              Bool.and_true, Bool.and_eq_true] at hd
            exact hd.1
        exact PodcastSearch.digit_toLower_ne_b c hdig hc

/-- When the stripped input parses as integer `n`, the selection step is
the range test on `index = n - 1`. -/
theorem PodcastSearch.selectionStep_parse_some
    (ps : List PodcastSearch.Podcast) (raw : String) (n : Int)
    (h : PodcastSearch.pyParseInt (PodcastSearch.pyStrip raw) = some n) :
    PodcastSearch.selectionStep ps raw =
      if 0 ≤ n - 1 ∧ n - 1 < min 5 (ps.length : Int) then
        .select (ps.getD (n - 1).toNat default)
      else .reprompt := by
  simp only [PodcastSearch.selectionStep]
  rw [if_neg (PodcastSearch.parse_some_not_b h), h]

/-- When the stripped input neither lowercases to `"b"` nor parses as an
integer, the selection step re-prompts. -/
theorem PodcastSearch.selectionStep_parse_none
    (ps : List PodcastSearch.Podcast) (raw : String)
    (hb : PodcastSearch.pyLower (PodcastSearch.pyStrip raw) ≠ "b")
    (hp : PodcastSearch.pyParseInt (PodcastSearch.pyStrip raw) = none) :
    PodcastSearch.selectionStep ps raw = .reprompt := by
  simp only [PodcastSearch.selectionStep]
  rw [if_neg hb, hp]

/-- When the stripped input lowercases to `"b"`, the selection step goes
back. -/
theorem PodcastSearch.selectionStep_b
    (ps : List PodcastSearch.Podcast) (raw : String)
    (hb : PodcastSearch.pyLower (PodcastSearch.pyStrip raw) = "b") :
    PodcastSearch.selectionStep ps raw = .back := by
  simp only [PodcastSearch.selectionStep]
  rw [if_pos hb]

/-- Reading within the displayed prefix agrees with reading the full
result list. -/
theorem PodcastSearch.getD_take5 (l : List PodcastSearch.Podcast) (i : Nat) (h : i < 5) :
    (l.take 5).getD i default = l.getD i default := by
  rw [List.getD_eq_getElem?_getD, List.getD_eq_getElem?_getD,
    List.getElem?_take_of_lt h]

/-- Claim C6: in the selection state over the result list, `"0"`, any
integer above `min(5, N)`, any non-numeric string (other than the `b`
back-command), and the empty string are each rejected and re-prompt in the
same state without advancing; `"b"`/`"B"` returns to the search prompt;
and an integer `n` with `1 ≤ n ≤ min(5, N)` selects the `n`-th displayed
podcast and fetches its episodes. -/
theorem PodcastSearch.selection_validation
    (ps : List PodcastSearch.Podcast) (catalog : String → List PodcastSearch.Podcast) :
    PodcastSearch.selectionStep ps "0" = .reprompt ∧
    PodcastSearch.selectionStep ps "" = .reprompt ∧
    PodcastSearch.selectionStep ps "b" = .back ∧
    PodcastSearch.selectionStep ps "B" = .back ∧
    (∀ raw : String, PodcastSearch.pyLower (PodcastSearch.pyStrip raw) ≠ "b" →
      PodcastSearch.pyParseInt (PodcastSearch.pyStrip raw) = none →
      PodcastSearch.selectionStep ps raw = .reprompt) ∧
    (∀ (raw : String) (n : Int),
      PodcastSearch.pyParseInt (PodcastSearch.pyStrip raw) = some n →
      min 5 (ps.length : Int) < n →
      PodcastSearch.selectionStep ps raw = .reprompt) ∧
    (∀ (raw : String) (n : Int),
      PodcastSearch.pyParseInt (PodcastSearch.pyStrip raw) = some n →
      1 ≤ n → n ≤ min 5 (ps.length : Int) →
      PodcastSearch.selectionStep ps raw =
        .select ((ps.take 5).getD (n - 1).toNat default) ∧
      PodcastSearch.discStep catalog (.awaitingSelection ps) raw =
        (.awaitingSearch, [.promptSelection,
          .episodesCall (((ps.take 5).getD (n - 1).toNat default)).id])) ∧
    (∀ raw : String, PodcastSearch.selectionStep ps raw = .reprompt →
      PodcastSearch.discStep catalog (.awaitingSelection ps) raw =
        (.awaitingSelection ps, [.promptSelection])) ∧
    (∀ raw : String, PodcastSearch.selectionStep ps raw = .back →
      PodcastSearch.discStep catalog (.awaitingSelection ps) raw =
        (.awaitingSearch, [.promptSelection])) := by
  refine ⟨?_, ?_, ?_, ?_, ?_, ?_, ?_, ?_, ?_⟩
  · rw [PodcastSearch.selectionStep_parse_some ps "0" 0 (by decide), if_neg (by omega)]
  · exact PodcastSearch.selectionStep_parse_none ps "" (by decide) (by decide)
  · exact PodcastSearch.selectionStep_b ps "b" (by decide)
  · exact PodcastSearch.selectionStep_b ps "B" (by decide)
  · intro raw hb hp
    exact PodcastSearch.selectionStep_parse_none ps raw hb hp
  · intro raw n hp hgt
    rw [PodcastSearch.selectionStep_parse_some ps raw n hp, if_neg (by omega)]
  · intro raw n hp h1 h2
    have hsel : PodcastSearch.selectionStep ps raw =
        .select ((ps.take 5).getD (n - 1).toNat default) := by
      rw [PodcastSearch.selectionStep_parse_some ps raw n hp, if_pos (by omega),
        PodcastSearch.getD_take5 ps (n - 1).toNat (by omega)]
    refine ⟨hsel, ?_⟩
    simp only [PodcastSearch.discStep, hsel]
  · intro raw h
    simp only [PodcastSearch.discStep, h]
  · intro raw h
    simp only [PodcastSearch.discStep, h]

/-- Claim C6 witness: the selection contract evaluated over a concrete
3-element result list — `"0"`, `"abc"`, `"4"` and `""` re-prompt, `"b"`
and `"B"` go back, and `"2"` selects the second displayed podcast and
fetches its episodes. -/
theorem PodcastSearch.selection_validation_witness :
    PodcastSearch.selectionStep [⟨11, "A"⟩, ⟨22, "B"⟩, ⟨33, "C"⟩] "0" = .reprompt ∧
    PodcastSearch.selectionStep [⟨11, "A"⟩, ⟨22, "B"⟩, ⟨33, "C"⟩] "" = .reprompt ∧
    PodcastSearch.selectionStep [⟨11, "A"⟩, ⟨22, "B"⟩, ⟨33, "C"⟩] "b" = .back ∧
    PodcastSearch.selectionStep [⟨11, "A"⟩, ⟨22, "B"⟩, ⟨33, "C"⟩] "B" = .back ∧
    PodcastSearch.selectionStep [⟨11, "A"⟩, ⟨22, "B"⟩, ⟨33, "C"⟩] "abc" = .reprompt ∧
    PodcastSearch.selectionStep [⟨11, "A"⟩, ⟨22, "B"⟩, ⟨33, "C"⟩] "4" = .reprompt ∧
    PodcastSearch.selectionStep [⟨11, "A"⟩, ⟨22, "B"⟩, ⟨33, "C"⟩] "2" =
      .select ⟨22, "B"⟩ ∧
    PodcastSearch.discStep (fun _ => [])
        (.awaitingSelection [⟨11, "A"⟩, ⟨22, "B"⟩, ⟨33, "C"⟩]) "2" =
      (.awaitingSearch, [.promptSelection, .episodesCall 22]) := by
  have h := PodcastSearch.selection_validation [⟨11, "A"⟩, ⟨22, "B"⟩, ⟨33, "C"⟩]
    (fun _ => [])
  obtain ⟨h0, hemp, hb, hB, hnone, hover, hsel, -, -⟩ := h
  refine ⟨h0, hemp, hb, hB, ?_, ?_, ?_, ?_⟩
  · exact hnone "abc" (by decide) (by decide)
  · exact hover "4" 4 (by decide) (by decide)
  · exact (hsel "2" 2 (by decide) (by decide) (by decide)).1
  · exact (hsel "2" 2 (by decide) (by decide) (by decide)).2
